import Mathlib

/-!
# Verification of the OORVOL scanner pipeline (`src/scanner_dashboard.py`)

Shallow embedding of the pure data-processing core of the scanner:

* Python `dict`s keyed by ticker are modelled as association lists
  `List (String × _)` with unique keys, read through `List.lookup`
  (Python dict access).
* Python floats are modelled as exact rationals `ℚ`; `round(x, 2)` is
  modelled by `round2` below (the tie-breaking rule of Python's float
  rounding is irrelevant to every claim checked here, because code value
  and claimed value are compared through the same `round2`).
* Minute bars carry the local clock hour and minute that
  `datetime.fromtimestamp(ts)` yields in the script, since the script
  only ever inspects `dt.hour` and `dt.minute` (and stores the `dt`s).
* `pd.DataFrame(results).sort_values("OORVOL", ascending=False)` is
  modelled by `sort_values_OORVOL`: on an empty record list the frame has
  no `OORVOL` column and pandas raises `KeyError`, modelled as
  `Except.error`; on a non-empty list it returns the records ordered by
  the `OORVOL` key descending.  pandas' default sort kind (`quicksort`)
  guarantees the ordering but not a stable tie order, so no tie-order
  property is derived from the concrete comparison sort used here.
-/

namespace OohScanner

/-- The sidebar configuration of the script (lines 15-18):
`OORVOL_THRESHOLD`, `MIN_AVG_VOLUME`, `MIN_PRICE`, `OOH_PRICE_THRESHOLD`. -/
structure Config where
  OORVOL_THRESHOLD : ℚ
  MIN_AVG_VOLUME : ℚ
  MIN_PRICE : ℚ
  OOH_PRICE_THRESHOLD : ℚ
deriving Repr, DecidableEq

/-- Python `round(x, 2)` on the rational model: round `x * 100` to an
integer and divide back by 100. -/
def round2 (x : ℚ) : ℚ := (round (x * 100) : ℤ) / 100

/-- Python `int(x)` on the rational model: truncation toward zero. -/
def int_py (q : ℚ) : ℤ := if 0 ≤ q then ⌊q⌋ else ⌈q⌉

/-- A universe entry built by `get_grouped_data_with_metadata`
(lines 51-55): `close` is the D-1 close, `prev_close` the D-2 close,
both rounded to 2 decimals, `pct_change` the day-over-day change. -/
structure UniverseEntry where
  close : ℚ
  pct_change : ℚ
  prev_close : ℚ
deriving Repr, DecidableEq

/-- The body of the loop of `get_grouped_data_with_metadata`
(lines 46-55) for one ticker of the D-1 grouped data: Python truthiness
of a float (`if today_close`, `if prev_close`) is `≠ 0`, and
`ticker in prev_results` is the `lookup` being `some`. -/
def universeEntry (cfg : Config) (prev_results : List (String × ℚ))
    (ticker : String) (today_close : ℚ) : Option UniverseEntry :=
  if today_close ≠ 0 then
    match prev_results.lookup ticker with
    | some prev_close =>
        if prev_close ≠ 0 ∧ today_close ≥ cfg.MIN_PRICE then
          some { close := round2 today_close
               , pct_change := round2 ((today_close - prev_close) / prev_close * 100)
               , prev_close := round2 prev_close }
        else none
    | none => none
  else none

/-- `get_grouped_data_with_metadata` (lines 35-56), applied to the two
ticker-to-close dictionaries extracted from the grouped responses
(lines 42-43).  The Python `for ticker, today_close in
today_results.items()` loop filling the `metadata` dict becomes a
`filterMap` producing an association list. -/
def get_grouped_data_with_metadata (cfg : Config)
    (today_results prev_results : List (String × ℚ)) :
    List (String × UniverseEntry) :=
  today_results.filterMap fun p =>
    (universeEntry cfg prev_results p.1 p.2).map fun e => (p.1, e)

/-- `fetch_21d_avg_volume` (lines 58-66): `results` is the list of daily
volumes as returned by the API for the 30-day window, sorted descending
by date and capped at 30.  Python `volumes[-21:]` (the last 21 elements)
is `drop (length - 21)`. -/
def fetch_21d_avg_volume (cfg : Config) (ticker : String)
    (results : List ℚ) : Option (String × ℚ) :=
  let volumes := results.drop (results.length - 21)
  if volumes.length ≥ 21 then
    let avg_vol := volumes.sum / 21
    if avg_vol ≥ cfg.MIN_AVG_VOLUME then some (ticker, avg_vol) else none
  else none

/-- One minute bar, reduced to the fields the script reads: the local
clock hour and minute of `datetime.fromtimestamp(c["t"] / 1000)`, the
volume `c["v"]` and the close `c["c"]`. -/
structure Bar where
  hour : ℕ
  minute : ℕ
  volume : ℚ
  close : ℚ
deriving Repr, DecidableEq

/-- The post-market test of line 83: `dt.hour >= 16`. -/
def isPost (b : Bar) : Bool := 16 ≤ b.hour

/-- The pre-market test of line 92:
`dt.hour < 9 or (dt.hour == 9 and dt.minute < 30)`. -/
def isPre (b : Bar) : Bool := b.hour < 9 || (b.hour == 9 && b.minute < 30)

/-- `post` of lines 75-86: total volume of yesterday's bars with
`dt.hour >= 16`. -/
def post_volume (bars_yesterday : List Bar) : ℚ :=
  ((bars_yesterday.filter isPost).map Bar.volume).sum

/-- `pre` of lines 75-95: total volume of today's bars before 09:30. -/
def pre_volume (bars_today : List Bar) : ℚ :=
  ((bars_today.filter isPre).map Bar.volume).sum

/-- The tuple returned by `fetch_ooh_volume` (lines 97-106), minus the
ticker (kept as the key of the association list built from it). -/
structure OohData where
  volume : ℚ
  pre_start : Option (ℕ × ℕ)
  pre_end : Option (ℕ × ℕ)
  post_start : Option (ℕ × ℕ)
  post_end : Option (ℕ × ℕ)
  pre_price : Option ℚ
  post_price : Option ℚ
deriving Repr, DecidableEq

/-- `fetch_ooh_volume` (lines 68-106) on the two minute-bar lists (the
API returns them ascending by timestamp; the accumulation loops keep
that order, so the appended `pre_times`/`pre_prices` lists are the
`filter`s of the inputs).  `pre_prices[0] if pre_prices else None` is
`head?`, `post_prices[-1] if post_prices else None` is `getLast?`. -/
def fetch_ooh_volume (bars_yesterday bars_today : List Bar) : OohData :=
  { volume := pre_volume bars_today + post_volume bars_yesterday
  , pre_start := ((bars_today.filter isPre).map fun b => (b.hour, b.minute)).head?
  , pre_end := ((bars_today.filter isPre).map fun b => (b.hour, b.minute)).getLast?
  , post_start := ((bars_yesterday.filter isPost).map fun b => (b.hour, b.minute)).head?
  , post_end := ((bars_yesterday.filter isPost).map fun b => (b.hour, b.minute)).getLast?
  , pre_price := ((bars_today.filter isPre).map Bar.close).head?
  , post_price := ((bars_yesterday.filter isPost).map Bar.close).getLast? }

/-- Line 145: `oorvol = ooh_vol / avg_vol if avg_vol else 0` (Python
truthiness of `avg_vol`: zero is falsy). -/
def oorvolRatio (ooh_vol avg_vol : ℚ) : ℚ :=
  if avg_vol ≠ 0 then ooh_vol / avg_vol else 0

/-- One row appended to `results` (lines 152-165).  Times are the local
(hour, minute) clock values of the stored `datetime`s. -/
structure ScanResult where
  ticker : String
  avg_volume : ℤ
  ooh_volume : ℤ
  oorvol : ℚ
  ooh_price_change : ℚ
  ooh_pct_change : ℚ
  last_close : ℚ
  daily_pct_change : Option ℚ
  pre_start : Option (ℕ × ℕ)
  pre_end : Option (ℕ × ℕ)
  post_start : Option (ℕ × ℕ)
  post_end : Option (ℕ × ℕ)
deriving Repr, DecidableEq

/-- The body of the scorer loop of `main_async` (lines 133-165) for one
`(ticker, avg_vol)` entry of `volume_map`.  `ooh_map.get(ticker, {})`
followed by `.get("pre_price")` is the `Option.bind`;
`meta.get("close")` is the `Option.map`; the guard
`if not pre_price or not post_price or not last_close: continue`
rejects both a missing value (`None`) and a zero value (falsy). -/
def scanRow (cfg : Config) (metadata_map : List (String × UniverseEntry))
    (ooh_map : List (String × OohData)) (ticker : String) (avg_vol : ℚ) :
    Option ScanResult :=
  match (ooh_map.lookup ticker).bind OohData.pre_price,
        (ooh_map.lookup ticker).bind OohData.post_price,
        (metadata_map.lookup ticker).map UniverseEntry.close with
  | some pre_price, some post_price, some last_close =>
    if pre_price = 0 ∨ post_price = 0 ∨ last_close = 0 then none
    else if (pre_price - last_close) / last_close * 100 < cfg.OOH_PRICE_THRESHOLD then
      none
    else if oorvolRatio (((ooh_map.lookup ticker).map OohData.volume).getD 0) avg_vol
        < cfg.OORVOL_THRESHOLD then
      none
    else some
      { ticker := ticker
      , avg_volume := int_py avg_vol
      , ooh_volume := int_py (((ooh_map.lookup ticker).map OohData.volume).getD 0)
      , oorvol := round2 (oorvolRatio (((ooh_map.lookup ticker).map OohData.volume).getD 0) avg_vol)
      , ooh_price_change := round2 (pre_price - last_close)
      , ooh_pct_change := round2 ((pre_price - last_close) / last_close * 100)
      , last_close := last_close
      , daily_pct_change := (metadata_map.lookup ticker).map UniverseEntry.pct_change
      , pre_start := (ooh_map.lookup ticker).bind OohData.pre_start
      , pre_end := (ooh_map.lookup ticker).bind OohData.pre_end
      , post_start := (ooh_map.lookup ticker).bind OohData.post_start
      , post_end := (ooh_map.lookup ticker).bind OohData.post_end }
  | _, _, _ => none

/-- `metadata_map` of line 110. -/
def metadata_map (cfg : Config) (today_results prev_results : List (String × ℚ)) :
    List (String × UniverseEntry) :=
  get_grouped_data_with_metadata cfg today_results prev_results

/-- `volume_map` of lines 113-115: one `fetch_21d_avg_volume` per
universe ticker, keeping the non-`None` results.  `volume_data` is the
per-ticker daily-volume response of the data source. -/
def volume_map (cfg : Config) (today_results prev_results : List (String × ℚ))
    (volume_data : String → List ℚ) : List (String × ℚ) :=
  ((metadata_map cfg today_results prev_results).map Prod.fst).filterMap
    fun t => fetch_21d_avg_volume cfg t (volume_data t)

/-- `ooh_map` of lines 117-130: one `fetch_ooh_volume` per ticker of
`volume_map`.  `bars_yesterday` / `bars_today` are the per-ticker
minute-bar responses of the data source. -/
def ooh_map (cfg : Config) (today_results prev_results : List (String × ℚ))
    (volume_data : String → List ℚ) (bars_yesterday bars_today : String → List Bar) :
    List (String × OohData) :=
  (volume_map cfg today_results prev_results volume_data).map
    fun p => (p.1, fetch_ooh_volume (bars_yesterday p.1) (bars_today p.1))

/-- The `results` list of lines 132-165: the scorer loop over
`volume_map.items()`. -/
def main_results (cfg : Config) (today_results prev_results : List (String × ℚ))
    (volume_data : String → List ℚ) (bars_yesterday bars_today : String → List Bar) :
    List ScanResult :=
  (volume_map cfg today_results prev_results volume_data).filterMap fun p =>
    scanRow cfg (metadata_map cfg today_results prev_results)
      (ooh_map cfg today_results prev_results volume_data bars_yesterday bars_today)
      p.1 p.2

/-- Lines 167-168: `pd.DataFrame(results)` followed by
`df.sort_values("OORVOL", ascending=False, inplace=True)`.  When
`results` is empty the frame has no columns, so pandas raises
`KeyError: 'OORVOL'`; otherwise the rows are reordered by the `OORVOL`
column descending (pandas' default `quicksort` fixes the ordering but
not the relative order of equal keys; the comparison sort used here is
one admissible outcome). -/
def sort_values_OORVOL (results : List ScanResult) :
    Except String (List ScanResult) :=
  match results with
  | [] => Except.error "KeyError: OORVOL"
  | _ => Except.ok (List.insertionSort (fun a b => b.oorvol ≤ a.oorvol) results)

/-- `main_async` (lines 108-169) end to end: build the universe, the
average-volume map and the OOH map, score, and sort the resulting frame. -/
def main_scan (cfg : Config) (today_results prev_results : List (String × ℚ))
    (volume_data : String → List ℚ) (bars_yesterday bars_today : String → List Bar) :
    Except String (List ScanResult) :=
  sort_values_OORVOL
    (main_results cfg today_results prev_results volume_data bars_yesterday bars_today)

/-! ## General lemmas about association-list lookups -/

theorem lookup_mem {α : Type} {l : List (String × α)} {t : String} {v : α}
    (h : l.lookup t = some v) : (t, v) ∈ l := by
  induction l with
  | nil => simp [List.lookup] at h
  | cons p rest ih =>
    obtain ⟨k, w⟩ := p
    cases hk : (t == k) with
    | true =>
      simp only [List.lookup, hk] at h
      obtain rfl : w = v := by simpa using h
      obtain rfl : t = k := by simpa using hk
      exact List.mem_cons_self _ _
    | false =>
      simp only [List.lookup, hk] at h
      exact List.mem_cons_of_mem _ (ih h)

theorem lookup_eq_none_of_not_mem {α : Type} {l : List (String × α)} {t : String}
    (h : t ∉ l.map Prod.fst) : l.lookup t = none := by
  induction l with
  | nil => simp [List.lookup]
  | cons p rest ih =>
    obtain ⟨k, w⟩ := p
    simp only [List.map_cons, List.mem_cons, not_or] at h
    have hk : (t == k) = false := by simpa using h.1
    simp only [List.lookup, hk]
    exact ih h.2

/-- Looking a key up in an association list built by a key-preserving
`filterMap` (the shape of the Python dict comprehensions of the script)
is the `Option.bind` of the lookup in the underlying list. -/
theorem lookup_filterMap_keyed {α β : Type} (g : String → α → Option β)
    {l : List (String × α)} {t : String} (hnd : (l.map Prod.fst).Nodup) :
    (l.filterMap fun p => (g p.1 p.2).map fun e => (p.1, e)).lookup t =
      (l.lookup t).bind fun v => g t v := by
  induction l with
  | nil => simp [List.lookup]
  | cons p rest ih =>
    obtain ⟨k, w⟩ := p
    simp only [List.map_cons, List.nodup_cons] at hnd
    cases hg : g k w with
    | none =>
      cases hk : (t == k) with
      | true =>
        obtain rfl : t = k := by simpa using hk
        simp only [List.filterMap_cons, hg, List.lookup, hk, Option.bind_some]
        rw [lookup_eq_none_of_not_mem]
        · exact hg.symm ▸ rfl
        · intro hmem
          exact hnd.1 (by
            obtain ⟨q, hq, rfl⟩ := List.mem_map.mp hmem
            obtain ⟨q', hq', hq''⟩ := List.mem_filterMap.mp hq
            obtain ⟨e, he, rfl⟩ := Option.map_eq_some'.mp hq''
            exact List.mem_map.mpr ⟨q', hq', rfl⟩)
      | false =>
        simp only [List.filterMap_cons, hg, List.lookup, hk]
        exact ih hnd.2
    | some e =>
      cases hk : (t == k) with
      | true =>
        obtain rfl : t = k := by simpa using hk
        simp [List.filterMap_cons, hg, List.lookup]
      | false =>
        simp only [List.filterMap_cons, hg, List.lookup, hk]
        exact ih hnd.2

/-! ## General lemmas about the pipeline stages -/

theorem oorvolRatio_zero (v : ℚ) : oorvolRatio v 0 = 0 := by
  simp [oorvolRatio]

theorem fetch_21d_avg_volume_fst {cfg : Config} {t : String} {results : List ℚ}
    {p : String × ℚ} (h : fetch_21d_avg_volume cfg t results = some p) : p.1 = t := by
  simp only [fetch_21d_avg_volume] at h
  split_ifs at h
  exact congrArg Prod.fst (Option.some_injective _ h).symm

/-- A row is only emitted for a ticker whose key is present in both the
OOH map and the metadata map, and the emitted ticker is the loop ticker. -/
theorem scanRow_eq_some {cfg : Config} {M : List (String × UniverseEntry)}
    {O : List (String × OohData)} {t : String} {a : ℚ} {r : ScanResult}
    (h : scanRow cfg M O t a = some r) :
    r.ticker = t ∧ (O.lookup t).isSome ∧ (M.lookup t).isSome := by
  unfold scanRow at h
  rcases h1 : (O.lookup t).bind OohData.pre_price with _ | pp <;> rw [h1] at h
  · simp at h
  rcases h2 : (O.lookup t).bind OohData.post_price with _ | qq <;> rw [h2] at h
  · simp at h
  rcases h3 : (M.lookup t).map UniverseEntry.close with _ | lc <;> rw [h3] at h
  · simp at h
  obtain ⟨d, hd, -⟩ := Option.bind_eq_some.mp h1
  obtain ⟨m, hm, -⟩ := Option.map_eq_some'.mp h3
  refine ⟨?_, by rw [hd]; rfl, by rw [hm]; rfl⟩
  dsimp only at h
  split_ifs at h
  injection h with h
  subst h
  rfl

/-- Characterization of one scorer-loop iteration when the ticker is
present in both joined maps and all three guarded prices are non-zero:
the row is emitted exactly when both thresholds are met *non-strictly*
(lines 147-150 `continue` on strict `<`). -/
theorem scanRow_emission {cfg : Config} {M : List (String × UniverseEntry)}
    {O : List (String × OohData)} {t : String} {a : ℚ} {d : OohData}
    {m : UniverseEntry} {pp qq : ℚ}
    (hd : O.lookup t = some d) (hm : M.lookup t = some m)
    (hpp : d.pre_price = some pp) (hqq : d.post_price = some qq)
    (hpp0 : pp ≠ 0) (hqq0 : qq ≠ 0) (hc0 : m.close ≠ 0) :
    scanRow cfg M O t a =
      if cfg.OOH_PRICE_THRESHOLD ≤ (pp - m.close) / m.close * 100 ∧
          cfg.OORVOL_THRESHOLD ≤ oorvolRatio d.volume a then
        some { ticker := t
             , avg_volume := int_py a
             , ooh_volume := int_py d.volume
             , oorvol := round2 (oorvolRatio d.volume a)
             , ooh_price_change := round2 (pp - m.close)
             , ooh_pct_change := round2 ((pp - m.close) / m.close * 100)
             , last_close := m.close
             , daily_pct_change := some m.pct_change
             , pre_start := d.pre_start
             , pre_end := d.pre_end
             , post_start := d.post_start
             , post_end := d.post_end }
      else none := by
  unfold scanRow
  rw [hd, hm]
  simp only [Option.some_bind, Option.map_some', Option.getD_some, hpp, hqq]
  rw [if_neg (by push_neg; exact ⟨hpp0, hqq0, hc0⟩)]
  by_cases h1 : (pp - m.close) / m.close * 100 < cfg.OOH_PRICE_THRESHOLD
  · rw [if_pos h1, if_neg (by rw [not_and_or]; exact Or.inl (not_le.mpr h1))]
  · rw [if_neg h1]
    by_cases h2 : oorvolRatio d.volume a < cfg.OORVOL_THRESHOLD
    · rw [if_pos h2, if_neg (by rw [not_and_or]; exact Or.inr (not_le.mpr h2))]
    · rw [if_neg h2, if_pos ⟨not_lt.mp h1, not_lt.mp h2⟩]

/-! ## Claim theorems -/

/-- Claim C1, as amended: the emitted `ooh_pct_change` equals
`round2 ((anchor_price - close) / close * 100)` where `anchor_price` is
the OOH aggregate's first pre-market price and `close` is the
`UniverseEntry`'s D-1 close (the `meta["close"]` of line 139), not the
D-2 `prev_close` the claim names (line 144 divides by `last_close`). -/
theorem C1_pct_change_uses_d1_close {cfg : Config}
    {M : List (String × UniverseEntry)} {O : List (String × OohData)}
    {t : String} {a : ℚ} {r : ScanResult} {d : OohData} {m : UniverseEntry} {pp : ℚ}
    (hd : O.lookup t = some d) (hm : M.lookup t = some m) (hpp : d.pre_price = some pp)
    (h : scanRow cfg M O t a = some r) :
    r.ooh_pct_change = round2 ((pp - m.close) / m.close * 100) := by
  unfold scanRow at h
  rw [hd, hm] at h
  simp only [Option.some_bind, Option.map_some', Option.getD_some, hpp] at h
  rcases hqq : d.post_price with _ | qq <;> rw [hqq] at h
  · simp at h
  dsimp only at h
  split_ifs at h
  injection h with h
  subst h
  rfl

/-- Claim C2, as amended: with the ticker present in both joined maps and
the three guarded prices non-zero, a `ScanResult` is emitted iff
`oorvol_ratio ≥ OORVOL_THRESHOLD` and `ooh_pct_change ≥
OOH_PRICE_THRESHOLD` — both comparisons are *non-strict* (the code skips
on strict `<` at lines 147-150), so a ticker whose ratio is exactly the
threshold is included, not excluded. -/
theorem C2_thresholds_nonstrict {cfg : Config}
    {M : List (String × UniverseEntry)} {O : List (String × OohData)}
    {t : String} {a : ℚ} {d : OohData} {m : UniverseEntry} {pp qq : ℚ}
    (hd : O.lookup t = some d) (hm : M.lookup t = some m)
    (hpp : d.pre_price = some pp) (hqq : d.post_price = some qq)
    (hpp0 : pp ≠ 0) (hqq0 : qq ≠ 0) (hc0 : m.close ≠ 0) :
    (scanRow cfg M O t a).isSome ↔
      (cfg.OOH_PRICE_THRESHOLD ≤ (pp - m.close) / m.close * 100 ∧
       cfg.OORVOL_THRESHOLD ≤ oorvolRatio d.volume a) := by
  rw [scanRow_emission hd hm hpp hqq hpp0 hqq0 hc0]
  split_ifs with hcond <;> simp [hcond]

/-- Claim C4, as amended: `fetch_21d_avg_volume` averages the *last* 21
entries of the descending-by-date volume list (`volumes[-21:]`, i.e. the
21 oldest samples of the fetched window, not the 21 most recent); it
yields nothing when fewer than 21 samples exist and nothing when the
mean is below `MIN_AVG_VOLUME`. -/
theorem C4_avg_volume_characterization (cfg : Config) (t : String)
    (results : List ℚ) :
    fetch_21d_avg_volume cfg t results =
      if 21 ≤ results.length ∧
          cfg.MIN_AVG_VOLUME ≤ (results.drop (results.length - 21)).sum / 21 then
        some (t, (results.drop (results.length - 21)).sum / 21)
      else none := by
  simp only [fetch_21d_avg_volume]
  have hlen := List.length_drop (results.length - 21) results
  by_cases h21 : 21 ≤ results.length
  · have h1 : (results.drop (results.length - 21)).length ≥ 21 := by omega
    rw [if_pos h1]
    by_cases hmin : (results.drop (results.length - 21)).sum / 21 ≥ cfg.MIN_AVG_VOLUME
    · rw [if_pos hmin, if_pos ⟨h21, hmin⟩]
    · rw [if_neg hmin, if_neg (by tauto)]
  · have h1 : ¬ ((results.drop (results.length - 21)).length ≥ 21) := by omega
    rw [if_neg h1, if_neg (by tauto)]

/-- Claim C5 (confirmed): on price data (all closes non-negative, positive
`MIN_PRICE`) and a duplicate-free D-1 snapshot, the Universe Filter
produces an entry for a ticker iff it has a close in both sessions with
`0 < prev_close` and `MIN_PRICE ≤ close`, and the entry carries the
rounded closes and the rounded day-over-day percent change. -/
theorem C5_universe_filter_characterization (cfg : Config)
    (today prev : List (String × ℚ)) (t : String)
    (hnd : (today.map Prod.fst).Nodup)
    (htoday : ∀ p ∈ today, 0 ≤ p.2) (hprev : ∀ p ∈ prev, 0 ≤ p.2)
    (hmp : 0 < cfg.MIN_PRICE) :
    (get_grouped_data_with_metadata cfg today prev).lookup t =
      match today.lookup t, prev.lookup t with
      | some c, some pc =>
        if 0 < pc ∧ cfg.MIN_PRICE ≤ c then
          some { close := round2 c
               , pct_change := round2 ((c - pc) / pc * 100)
               , prev_close := round2 pc }
        else none
      | _, _ => none := by
  rw [get_grouped_data_with_metadata, lookup_filterMap_keyed _ hnd]
  rcases hc : today.lookup t with _ | c
  · rfl
  have h0c : 0 ≤ c := htoday _ (lookup_mem hc)
  rcases hpc : prev.lookup t with _ | pc
  · simp only [Option.some_bind, universeEntry, hpc]
    split_ifs <;> rfl
  have h0pc : 0 ≤ pc := hprev _ (lookup_mem hpc)
  simp only [Option.some_bind, universeEntry, hpc]
  have hiff : (pc ≠ 0 ∧ c ≥ cfg.MIN_PRICE) ↔ (0 < pc ∧ cfg.MIN_PRICE ≤ c) := by
    constructor
    · rintro ⟨ha, hb⟩
      exact ⟨lt_of_le_of_ne h0pc (Ne.symm ha), hb⟩
    · rintro ⟨ha, hb⟩
      exact ⟨ne_of_gt ha, hb⟩
  by_cases hco : 0 < pc ∧ cfg.MIN_PRICE ≤ c
  · have hc0 : c ≠ 0 := ne_of_gt (lt_of_lt_of_le hmp hco.2)
    rw [if_pos hc0, if_pos (hiff.mpr hco), if_pos hco]
  · rw [if_neg hco]
    by_cases hc0 : c ≠ 0
    · rw [if_pos hc0, if_neg (fun hh => hco (hiff.mp hh))]
    · rw [if_neg hc0]

/-- Claim C7 (confirmed): yesterday's bars enter the post-market subset
exactly when the local hour is ≥ 16, today's bars enter the pre-market
subset exactly when the local time is before 09:30, and a bar whose
local clock time lies in [09:30, 16:00) contributes to neither volume
sum (appending it to either input leaves both sums unchanged). -/
theorem C7_session_window_exclusivity (bars_yesterday bars_today : List Bar)
    (b : Bar) :
    (isPost b = true ↔ 16 ≤ b.hour) ∧
    (isPre b = true ↔ (b.hour < 9 ∨ (b.hour = 9 ∧ b.minute < 30))) ∧
    (b.minute < 60 → 9 * 60 + 30 ≤ 60 * b.hour + b.minute →
      60 * b.hour + b.minute < 16 * 60 →
      isPost b = false ∧ isPre b = false ∧
      post_volume (bars_yesterday ++ [b]) = post_volume bars_yesterday ∧
      pre_volume (bars_today ++ [b]) = pre_volume bars_today) := by
  refine ⟨by simp [isPost], by simp [isPre], ?_⟩
  intro hmin h930 h1600
  have hpost : isPost b = false := by
    simp only [isPost, decide_eq_false_iff_not]
    omega
  have hpre : isPre b = false := by
    simp only [isPre, Bool.or_eq_false_iff, Bool.and_eq_false_iff,
      decide_eq_false_iff_not, beq_eq_false_iff_ne]
    omega
  refine ⟨hpost, hpre, ?_, ?_⟩
  · simp [post_volume, List.filter_append, hpost]
  · simp [pre_volume, List.filter_append, hpre]

/-- Claim C8 (confirmed): every emitted `ScanResult` belongs to a ticker
present in the Volume Qualifier output, the Universe Filter output and
the Bar Aggregator output, and the Bar Aggregator is run on exactly the
Volume Qualifier's tickers — the scorer evaluates exactly the
intersection of the three maps, and a ticker missing from any of them
yields no row (and no error: all stages are total functions). -/
theorem C8_scorer_join_intersection (cfg : Config)
    (today prev : List (String × ℚ)) (vols : String → List ℚ)
    (bY bT : String → List Bar) (r : ScanResult)
    (hr : r ∈ main_results cfg today prev vols bY bT) :
    r.ticker ∈ (volume_map cfg today prev vols).map Prod.fst ∧
    r.ticker ∈ (metadata_map cfg today prev).map Prod.fst ∧
    r.ticker ∈ (ooh_map cfg today prev vols bY bT).map Prod.fst ∧
    (ooh_map cfg today prev vols bY bT).map Prod.fst =
      (volume_map cfg today prev vols).map Prod.fst := by
  have hkeys : (ooh_map cfg today prev vols bY bT).map Prod.fst =
      (volume_map cfg today prev vols).map Prod.fst := by
    simp [ooh_map, List.map_map, Function.comp]
  obtain ⟨p, hp, hsc⟩ := List.mem_filterMap.mp hr
  obtain ⟨hticker, hO, hM⟩ := scanRow_eq_some hsc
  have hpv : r.ticker ∈ (volume_map cfg today prev vols).map Prod.fst := by
    rw [hticker]
    exact List.mem_map_of_mem _ hp
  obtain ⟨m, hm⟩ := Option.isSome_iff_exists.mp hM
  refine ⟨hpv, ?_, hkeys ▸ hpv, hkeys⟩
  rw [hticker]
  exact List.mem_map.mpr ⟨(p.1, m), lookup_mem hm, rfl⟩

/-- Claim C9, as amended: when `avg_vol` is 0 the ratio of line 145 is 0
(never a division by zero, an infinity or a NaN), and the record is
excluded *whenever `OORVOL_THRESHOLD` is positive* (in particular at the
default 1.2); with a zero threshold the slider permits, such a record
can still be emitted, so the unconditional exclusion the claim states
does not hold. -/
theorem C9_zero_avg_ratio_zero (cfg : Config)
    (M : List (String × UniverseEntry)) (O : List (String × OohData))
    (t : String) (v : ℚ) (hT : 0 < cfg.OORVOL_THRESHOLD) :
    oorvolRatio v 0 = 0 ∧ scanRow cfg M O t 0 = none := by
  refine ⟨oorvolRatio_zero v, ?_⟩
  unfold scanRow
  rcases h1 : (O.lookup t).bind OohData.pre_price with _ | pp <;>
    rcases h2 : (O.lookup t).bind OohData.post_price with _ | qq <;>
      rcases h3 : (M.lookup t).map UniverseEntry.close with _ | lc <;> try rfl
  dsimp only
  split_ifs with hz hp ho <;> try rfl
  exact absurd (by rw [oorvolRatio_zero]; exact hT) ho

/-- Claim C10 (confirmed): a first pre-market price, last post-market
price or D-1 close that is exactly 0 is rejected by the falsy guard of
line 141 exactly as a missing value is, and an emitted row never has a
zero `last_close`. -/
theorem C10_zero_price_rejection (cfg : Config)
    (M : List (String × UniverseEntry)) (O : List (String × OohData))
    (t : String) (a : ℚ) :
    ((O.lookup t).bind OohData.pre_price = some 0 ∨
     (O.lookup t).bind OohData.post_price = some 0 ∨
     (M.lookup t).map UniverseEntry.close = some 0 →
      scanRow cfg M O t a = none) ∧
    ((O.lookup t).bind OohData.pre_price = none ∨
     (O.lookup t).bind OohData.post_price = none ∨
     (M.lookup t).map UniverseEntry.close = none →
      scanRow cfg M O t a = none) ∧
    (∀ r : ScanResult, scanRow cfg M O t a = some r → r.last_close ≠ 0) := by
  refine ⟨?_, ?_, ?_⟩
  · intro hzero
    unfold scanRow
    rcases h1 : (O.lookup t).bind OohData.pre_price with _ | pp <;>
      rcases h2 : (O.lookup t).bind OohData.post_price with _ | qq <;>
        rcases h3 : (M.lookup t).map UniverseEntry.close with _ | lc <;> try rfl
    dsimp only
    rcases hzero with h | h | h
    · rw [h1] at h
      obtain rfl : pp = 0 := by simpa using h
      rw [if_pos (Or.inl rfl)]
    · rw [h2] at h
      obtain rfl : qq = 0 := by simpa using h
      rw [if_pos (Or.inr (Or.inl rfl))]
    · rw [h3] at h
      obtain rfl : lc = 0 := by simpa using h
      rw [if_pos (Or.inr (Or.inr rfl))]
  · intro hnone
    unfold scanRow
    rcases h1 : (O.lookup t).bind OohData.pre_price with _ | pp <;>
      rcases h2 : (O.lookup t).bind OohData.post_price with _ | qq <;>
        rcases h3 : (M.lookup t).map UniverseEntry.close with _ | lc <;> try rfl
    rcases hnone with h | h | h <;> simp_all
  · intro r h
    unfold scanRow at h
    rcases h1 : (O.lookup t).bind OohData.pre_price with _ | pp <;> rw [h1] at h
    · simp at h
    rcases h2 : (O.lookup t).bind OohData.post_price with _ | qq <;> rw [h2] at h
    · simp at h
    rcases h3 : (M.lookup t).map UniverseEntry.close with _ | lc <;> rw [h3] at h
    · simp at h
    dsimp only at h
    split_ifs at h with hz
    injection h with h
    subst h
    intro hlc
    exact hz (Or.inr (Or.inr hlc))

/-! ## A concrete scan scenario

One ticker `"ABC"`: D-1 close 20, D-2 close 10, 21 volume samples of
100 each, one post-market bar yesterday at 16:00 (volume 500, close 11)
and one pre-market bar today at 08:00 (volume 700, close 30). -/

def cfgW : Config := ⟨1, 1, 2, 1⟩

def todayW : List (String × ℚ) := [("ABC", 20)]

def prevW : List (String × ℚ) := [("ABC", 10)]

def volsW : String → List ℚ := fun _ => List.replicate 21 100

def bYW : String → List Bar := fun _ => [⟨16, 0, 500, 11⟩]

def bTW : String → List Bar := fun _ => [⟨8, 0, 700, 30⟩]

def mW : UniverseEntry := ⟨20, 100, 10⟩

def dW : OohData :=
  ⟨1200, some (8, 0), some (8, 0), some (16, 0), some (16, 0), some 30, some 11⟩

def rW : ScanResult :=
  ⟨"ABC", 100, 1200, 12, 10, 50, 20, some 100,
   some (8, 0), some (8, 0), some (16, 0), some (16, 0)⟩

theorem metaW_eval : metadata_map cfgW todayW prevW = [("ABC", mW)] := by
  norm_num [metadata_map, get_grouped_data_with_metadata, universeEntry, cfgW, todayW,
    prevW, mW, List.filterMap, List.lookup, round2, round_eq, Rat.floor_def]

theorem volW_eval : volume_map cfgW todayW prevW volsW = [("ABC", 100)] := by
  norm_num [volume_map, metadata_map, get_grouped_data_with_metadata, universeEntry,
    fetch_21d_avg_volume, cfgW, todayW, prevW, volsW, List.filterMap, List.lookup,
    List.replicate, round2, round_eq, Rat.floor_def]

theorem oohW_eval : ooh_map cfgW todayW prevW volsW bYW bTW = [("ABC", dW)] := by
  rw [ooh_map, volW_eval]
  norm_num [fetch_ooh_volume, post_volume, pre_volume, isPost, isPre, bYW, bTW, dW,
    List.filter]

theorem scanW_eval :
    scanRow cfgW (metadata_map cfgW todayW prevW)
      (ooh_map cfgW todayW prevW volsW bYW bTW) "ABC" 100 = some rW := by
  rw [metaW_eval, oohW_eval]
  norm_num [scanRow, oorvolRatio, int_py, cfgW, mW, dW, rW, List.lookup,
    round2, round_eq, Rat.floor_def]

theorem mainW_eval : main_results cfgW todayW prevW volsW bYW bTW = [rW] := by
  rw [main_results, volW_eval, metaW_eval, oohW_eval]
  norm_num [scanRow, oorvolRatio, int_py, cfgW, mW, dW, rW, List.filterMap, List.lookup,
    round2, round_eq, Rat.floor_def]

/-- Claim C1, counterexample: in the scenario the scorer emits
`ooh_pct_change = 50` (the change of the pre-market anchor 30 against
the D-1 close 20), while the claim's formula against the entry's
`prev_close = 10` (the D-2 close) yields 200. -/
theorem C1_counterexample :
    (main_results cfgW todayW prevW volsW bYW bTW).map ScanResult.ooh_pct_change
        = [50] ∧
    ((metadata_map cfgW todayW prevW).lookup "ABC").map UniverseEntry.prev_close
        = some 10 ∧
    (fetch_ooh_volume (bYW "ABC") (bTW "ABC")).pre_price = some 30 ∧
    round2 ((30 - 10) / 10 * 100) = 200 ∧ (50 : ℚ) ≠ 200 := by
  rw [mainW_eval, metaW_eval]
  refine ⟨rfl, rfl, ?_, ?_, by norm_num⟩
  · norm_num [fetch_ooh_volume, pre_volume, post_volume, isPre, isPost, bYW, bTW,
      List.filter]
  · norm_num [round2, round_eq, Rat.floor_def]

/-- Claim C1, witness for the amended theorem at the concrete
scenario. -/
theorem C1_pct_change_uses_d1_close_witness :
    rW.ooh_pct_change = round2 ((30 - mW.close) / mW.close * 100) :=
  C1_pct_change_uses_d1_close (by rw [oohW_eval]; rfl) (by rw [metaW_eval]; rfl) rfl
    scanW_eval

/-- The scenario configuration with `OORVOL_THRESHOLD = 12`, exactly the
scenario's ratio `(700 + 500) / 100`. -/
def cfgC2 : Config := ⟨12, 1, 2, 1⟩

theorem mainC2_eval : main_results cfgC2 todayW prevW volsW bYW bTW =
    [⟨"ABC", 100, 1200, 12, 10, 50, 20, some 100,
      some (8, 0), some (8, 0), some (16, 0), some (16, 0)⟩] := by
  norm_num [main_results, volume_map, metadata_map, get_grouped_data_with_metadata,
    universeEntry, fetch_21d_avg_volume, ooh_map, fetch_ooh_volume, post_volume,
    pre_volume, isPost, isPre, scanRow, oorvolRatio, int_py, cfgC2, todayW, prevW,
    volsW, bYW, bTW, List.filterMap, List.lookup, List.filter, List.replicate,
    round2, round_eq, Rat.floor_def]

/-- Claim C2, counterexample: with `OORVOL_THRESHOLD = 12` the
scenario's ratio is exactly 12, yet one `ScanResult` is emitted — the
claim's strict-inequality exclusion at the threshold boundary does not
hold (lines 147-150 skip on `<`, so equality passes). -/
theorem C2_counterexample :
    oorvolRatio (fetch_ooh_volume (bYW "ABC") (bTW "ABC")).volume 100
        = cfgC2.OORVOL_THRESHOLD ∧
    volume_map cfgC2 todayW prevW volsW = [("ABC", 100)] ∧
    (main_results cfgC2 todayW prevW volsW bYW bTW).length = 1 := by
  refine ⟨?_, ?_, by rw [mainC2_eval]; rfl⟩
  · norm_num [oorvolRatio, fetch_ooh_volume, pre_volume, post_volume, isPre, isPost,
      bYW, bTW, List.filter, cfgC2]
  · norm_num [volume_map, metadata_map, get_grouped_data_with_metadata, universeEntry,
      fetch_21d_avg_volume, cfgC2, todayW, prevW, volsW, List.filterMap, List.lookup,
      List.replicate, round2, round_eq, Rat.floor_def]

/-- Claim C2, witness for the amended theorem at the concrete
scenario. -/
theorem C2_thresholds_nonstrict_witness :
    (scanRow cfgW (metadata_map cfgW todayW prevW)
        (ooh_map cfgW todayW prevW volsW bYW bTW) "ABC" 100).isSome ↔
      (cfgW.OOH_PRICE_THRESHOLD ≤ (30 - mW.close) / mW.close * 100 ∧
       cfgW.OORVOL_THRESHOLD ≤ oorvolRatio dW.volume 100) :=
  C2_thresholds_nonstrict (by rw [oohW_eval]; rfl) (by rw [metaW_eval]; rfl) rfl rfl
    (by norm_num) (by norm_num) (by norm_num [mW])

/-- Claim C3: with no grouped closes for D-1 the universe, the volume
map and the result list are all empty, `pd.DataFrame([])` has no
`OORVOL` column, and `df.sort_values("OORVOL", ...)` raises `KeyError`
instead of returning the empty result the spec (and the script's own
`df.empty` branch at lines 175-179) expects. -/
theorem C3_empty_universe_keyerror :
    main_scan cfgW [] [] volsW bYW bTW = Except.error "KeyError: OORVOL" := rfl

/-- 22 volume samples, descending by date: the most recent is 100, the
21 older ones are 10. -/
def volsC4 : List ℚ := 100 :: List.replicate 21 10

/-- Claim C4, counterexample: `volumes[-21:]` of the descending list
keeps the 21 *oldest* samples, so the emitted average is 10, while the
mean of the 21 most recent samples is 300/21 = 100/7. -/
theorem C4_counterexample :
    fetch_21d_avg_volume cfgW "ABC" volsC4 = some ("ABC", 10) ∧
    (volsC4.take 21).sum / 21 = (100 : ℚ) / 7 ∧ (10 : ℚ) ≠ 100 / 7 := by
  refine ⟨?_, ?_, by norm_num⟩
  · norm_num [fetch_21d_avg_volume, volsC4, List.replicate, cfgW]
  · norm_num [volsC4, List.replicate, List.take]

/-- Claim C5, witness at the concrete scenario. -/
theorem C5_universe_filter_characterization_witness :
    (get_grouped_data_with_metadata cfgW todayW prevW).lookup "ABC" =
      match todayW.lookup "ABC", prevW.lookup "ABC" with
      | some c, some pc =>
        if 0 < pc ∧ cfgW.MIN_PRICE ≤ c then
          some { close := round2 c
               , pct_change := round2 ((c - pc) / pc * 100)
               , prev_close := round2 pc }
        else none
      | _, _ => none :=
  C5_universe_filter_characterization cfgW todayW prevW "ABC"
    (by simp [todayW])
    (by intro p hp; rw [List.mem_singleton.mp hp]; norm_num)
    (by intro p hp; rw [List.mem_singleton.mp hp]; norm_num)
    (by norm_num [cfgW])

/-- Claim C7, witness: a 10:15 bar is in neither window and changes
neither sum. -/
theorem C7_session_window_exclusivity_witness :
    isPost ⟨10, 15, 3, 4⟩ = false ∧ isPre ⟨10, 15, 3, 4⟩ = false ∧
    post_volume ([⟨16, 0, 500, 11⟩] ++ [⟨10, 15, 3, 4⟩])
        = post_volume [⟨16, 0, 500, 11⟩] ∧
    pre_volume ([⟨8, 0, 700, 30⟩] ++ [⟨10, 15, 3, 4⟩])
        = pre_volume [⟨8, 0, 700, 30⟩] :=
  (C7_session_window_exclusivity [⟨16, 0, 500, 11⟩] [⟨8, 0, 700, 30⟩]
    ⟨10, 15, 3, 4⟩).2.2 (by norm_num) (by norm_num) (by norm_num)

/-- Claim C8, witness at the concrete scenario. -/
theorem C8_scorer_join_intersection_witness :
    rW.ticker ∈ (volume_map cfgW todayW prevW volsW).map Prod.fst ∧
    rW.ticker ∈ (metadata_map cfgW todayW prevW).map Prod.fst ∧
    rW.ticker ∈ (ooh_map cfgW todayW prevW volsW bYW bTW).map Prod.fst ∧
    (ooh_map cfgW todayW prevW volsW bYW bTW).map Prod.fst =
      (volume_map cfgW todayW prevW volsW).map Prod.fst :=
  C8_scorer_join_intersection cfgW todayW prevW volsW bYW bTW rW
    (by rw [mainW_eval]; exact List.mem_singleton.mpr rfl)

/-- The scenario configuration with both thresholds 0 and
`MIN_AVG_VOLUME = 0`, and 21 volume samples that are all 0. -/
def cfgC9 : Config := ⟨0, 0, 2, 0⟩

def volsC9 : String → List ℚ := fun _ => List.replicate 21 0

/-- Claim C9, counterexample: with `MIN_AVG_VOLUME = 0` and
`OORVOL_THRESHOLD = 0` (both reachable slider values) a ticker with
`avg_vol = 0` reaches the scorer and *is emitted* with ratio 0 — the
ratio is indeed 0 rather than infinity, but the record is not excluded
as the claim states. -/
theorem C9_counterexample :
    volume_map cfgC9 todayW prevW volsC9 = [("ABC", 0)] ∧
    (main_results cfgC9 todayW prevW volsC9 bYW bTW).map ScanResult.oorvol
        = [0] ∧
    cfgC9.OORVOL_THRESHOLD = 0 := by
  have hv : volume_map cfgC9 todayW prevW volsC9 = [("ABC", 0)] := by
    norm_num [volume_map, metadata_map, get_grouped_data_with_metadata, universeEntry,
      fetch_21d_avg_volume, cfgC9, todayW, prevW, volsC9, List.filterMap, List.lookup,
      List.replicate, round2, round_eq, Rat.floor_def]
  have hm9 : metadata_map cfgC9 todayW prevW = [("ABC", mW)] := by
    norm_num [metadata_map, get_grouped_data_with_metadata, universeEntry, cfgC9,
      todayW, prevW, mW, List.filterMap, List.lookup, round2, round_eq, Rat.floor_def]
  have ho9 : ooh_map cfgC9 todayW prevW volsC9 bYW bTW = [("ABC", dW)] := by
    rw [ooh_map, hv]
    norm_num [fetch_ooh_volume, post_volume, pre_volume, isPost, isPre, bYW, bTW, dW,
      List.filter]
  refine ⟨hv, ?_, rfl⟩
  rw [main_results, hv, hm9, ho9]
  norm_num [scanRow, oorvolRatio, int_py, cfgC9, mW, dW, List.filterMap, List.lookup,
    round2, round_eq, Rat.floor_def]

/-- Claim C9, witness for the amended theorem. -/
theorem C9_zero_avg_ratio_zero_witness :
    oorvolRatio 7 0 = 0 ∧
    scanRow cfgW (metadata_map cfgW todayW prevW)
      (ooh_map cfgW todayW prevW volsW bYW bTW) "ABC" 0 = none :=
  C9_zero_avg_ratio_zero cfgW (metadata_map cfgW todayW prevW)
    (ooh_map cfgW todayW prevW volsW bYW bTW) "ABC" 7 (by norm_num [cfgW])

/-- A map pair whose OOH aggregate has a *zero* first pre-market price. -/
def oohZ : List (String × OohData) :=
  [("XYZ", ⟨5, some (8, 0), some (8, 0), none, none, some 0, some 3⟩)]

def metaZ : List (String × UniverseEntry) := [("XYZ", ⟨10, 1, 9⟩)]

/-- Claim C10, witness: a zero first pre-market price is rejected. -/
theorem C10_zero_price_rejection_witness :
    scanRow cfgW metaZ oohZ "XYZ" 1 = none :=
  (C10_zero_price_rejection cfgW metaZ oohZ "XYZ" 1).1 (Or.inl rfl)

end OohScanner
